import Mathlib

/-
Verification of the brewblox-brewfather-uploader polling feature
(src/brewblox_brewfather_uploader/brewfather_uploader.py) against its
natural-language specification.

The single source file defines `PublishingFeature` with two phases:
`prepare` (read config values, floor the poll interval, compile the
per-fermenter field mapping from a YAML document) and `run` (one poll
cycle: per fermenter, POST the metric field list to the history API,
reshape the response, attach name/units, drop nulls, POST to Brewfather,
classify the `result` token).

Shallow embedding conventions:
- Python dicts are association lists `List (String × α)` with
  insertion-order/overwrite semantics given by `dictInsert`.
- JSON scalar values carried through the cycle are the inductive `Val`
  (null / number / string).
- Exceptions are `Except Unit` (the feature converts every prepare-phase
  exception into `repeater.RepeaterCancelled`).
- The two outbound HTTP calls in `run` are abstracted by a
  `FetchOutcome`-valued oracle keyed by fermenter name; crucially the
  fetch POST at line 139 sits OUTSIDE the try/except (only
  `ClientResponseError` from `response.json()` at line 143 is caught),
  which the `FetchOutcome.postError` / `FetchOutcome.jsonError` split
  records.
-/

/-- Python `dict` assignment `d[k] = v`: if the key is present its value is
replaced in place, otherwise the pair is appended (insertion order). -/
def dictInsert {α : Type} (k : String) (v : α) (d : List (String × α)) : List (String × α) :=
  if d.any (fun p => p.1 = k) then
    d.map (fun p => if p.1 = k then (k, v) else p)
  else
    d ++ [(k, v)]

/-- Python `str.lower()` restricted to the ASCII strings the uploader uses
(`'Specific gravity'`, `'Plato[degP]'`): each character lower-cased. -/
def pyLower (s : String) : String :=
  ⟨s.data.map Char.toLower⟩

/-- A sensor entry of the YAML config after key extraction (lines 62-64, 70):
`service_type`, `service`, `sensor`, and the
`sensor_config.get('tilt_params', \x7b\x7d).get('calibrated', False)` flag. -/
structure SensorConfig where
  service_type : String
  service : String
  sensor : String
  calibrated : Bool
deriving DecidableEq, Repr

/-- Temp-metric derivation for one `'temp'` sensor entry (lines 67-77):
`tilt` uses `Calibrated temperature[deg{u}]` / `Temperature[deg{u}]`
depending on the calibrated flag, `spark` uses `value[deg{u}]` ignoring the
flag, and any other service type leaves the metric unassigned. -/
def tempMetric (service_type service sensor temp_unit : String) (calibrated : Bool) :
    Option String :=
  if service_type = "tilt" then
    if calibrated then
      some (service ++ "/" ++ sensor ++ "/Calibrated temperature[deg" ++ temp_unit ++ "]")
    else
      some (service ++ "/" ++ sensor ++ "/Temperature[deg" ++ temp_unit ++ "]")
  else if service_type = "spark" then
    some (service ++ "/" ++ sensor ++ "/value[deg" ++ temp_unit ++ "]")
  else
    none

/-- Gravity-metric string for a `tilt` gravity sensor (lines 82-87): the unit
label is `Specific gravity` when the gravity unit is `G`, else `Plato[degP]`;
when calibrated the code emits `Calibrated ` followed by
`unit_string.lower()` (the WHOLE label lower-cased), else the label as is. -/
def gravityMetricTilt (service sensor gravity_unit : String) (calibrated : Bool) : String :=
  let unit_string := if gravity_unit = "G" then "Specific gravity" else "Plato[degP]"
  if calibrated then
    service ++ "/" ++ sensor ++ "/Calibrated " ++ pyLower unit_string
  else
    service ++ "/" ++ sensor ++ "/" ++ unit_string

/-- Gravity-metric derivation for one `'gravity'` sensor entry (lines 80-89):
only `tilt` is recognised, anything else leaves the metric unassigned. -/
def gravityMetric (service_type service sensor gravity_unit : String) (calibrated : Bool) :
    Option String :=
  if service_type = "tilt" then
    some (gravityMetricTilt service sensor gravity_unit calibrated)
  else
    none

/-- One step of the sensor loop (lines 60-90) acting on the pair
`(temp_metric, gravity_metric)`: a recognised entry overwrites the
corresponding slot, everything else leaves both slots unchanged. -/
def resolveSensor (temp_unit gravity_unit : String) (acc : Option String × Option String)
    (entry : String × SensorConfig) : Option String × Option String :=
  if entry.1 = "temp" then
    match tempMetric entry.2.service_type entry.2.service entry.2.sensor temp_unit
        entry.2.calibrated with
    | some m => (some m, acc.2)
    | none => acc
  else if entry.1 = "gravity" then
    match gravityMetric entry.2.service_type entry.2.service entry.2.sensor gravity_unit
        entry.2.calibrated with
    | some m => (acc.1, some m)
    | none => acc
  else
    acc

/-- The sensor loop of `prepare` for one fermenter: both metrics start as
`None` (lines 56-57) and each sensor entry is folded in order. -/
def compileDevice (temp_unit gravity_unit : String) (sensors : List (String × SensorConfig)) :
    Option String × Option String :=
  sensors.foldl (resolveSensor temp_unit gravity_unit) (none, none)

/-- The per-fermenter `'metrics'` dict stored in `self.field_mapping`
(lines 93-97): both keys are always written, holding `None` when the field
was never resolved. -/
def deviceMetricsDict (temp_metric gravity_metric : Option String) :
    List (String × Option String) :=
  [("temp", temp_metric), ("gravity", gravity_metric)]

/-- The compiled per-fermenter record: the `'metrics'` and `'units'` halves of
the dict built at lines 93-104. -/
structure DeviceFields where
  temp_metric : Option String
  gravity_metric : Option String
  temp_unit : String
  gravity_unit : String
deriving DecidableEq, Repr

/-- A raw sensor dict from the YAML file, before the required-key reads at
lines 62-64; a missing key is `none` and raises `KeyError` in Python. -/
structure RawSensor where
  service_type : Option String
  service : Option String
  sensor : Option String
  calibrated : Bool
deriving DecidableEq, Repr

/-- A raw fermenter dict from the YAML file: `name` and `sensors` are required
(lines 49, 53), `temp_unit` and `gravity_unit` are optional with defaults
(lines 51-52). -/
structure RawFermenter where
  name : Option String
  temp_unit : Option String
  gravity_unit : Option String
  sensors : Option (List (String × RawSensor))
deriving DecidableEq, Repr

/-- Required-key extraction for one sensor entry: any of `service_type`,
`service`, `sensor` missing raises (lines 62-64), for every field name. -/
def compileSensor (s : RawSensor) : Except Unit SensorConfig :=
  match s.service_type, s.service, s.sensor with
  | some st, some sv, some sn => .ok ⟨st, sv, sn, s.calibrated⟩
  | _, _, _ => .error ()

/-- Key extraction over the whole sensor dict of a fermenter, in order; the
first missing key aborts (the enclosing `except Exception` at line 106). -/
def compileSensors : List (String × RawSensor) → Except Unit (List (String × SensorConfig))
  | [] => .ok []
  | e :: rest =>
    match compileSensor e.2 with
    | .error err => .error err
    | .ok c => (compileSensors rest).map (fun cs => (e.1, c) :: cs)

/-- Compilation of one fermenter record (lines 47-104): required keys `name`
and `sensors`, unit defaults `'F'` / `'G'` via `.get` (lines 51-52), then the
sensor loop. -/
def compileFermenter (f : RawFermenter) : Except Unit (String × DeviceFields) :=
  match f.name, f.sensors with
  | some nm, some sensors =>
    (compileSensors sensors).map (fun sensors' =>
      let tu := f.temp_unit.getD "F"
      let gu := f.gravity_unit.getD "G"
      let (tm, gm) := compileDevice tu gu sensors'
      (nm, ⟨tm, gm, tu, gu⟩))
  | _, _ => .error ()

/-- The fermenter loop of `prepare` building `self.field_mapping` (lines
44-104): each compiled fermenter is written into the dict keyed by its name
(line 93), so a repeated name silently overwrites the earlier entry; any
raised error aborts the whole table (lines 106-108). -/
def compileConfigAux (table : List (String × DeviceFields)) :
    List RawFermenter → Except Unit (List (String × DeviceFields))
  | [] => .ok table
  | f :: rest =>
    match compileFermenter f with
    | .error err => .error err
    | .ok nv => compileConfigAux (dictInsert nv.1 nv.2 table) rest

/-- `self.field_mapping` as compiled from the whole config file. -/
def compileConfig (cfg : List RawFermenter) : Except Unit (List (String × DeviceFields)) :=
  compileConfigAux [] cfg

/-- Structural validity of the raw sensor dict: all three required keys
present. Characterisation predicate used to state when compilation succeeds. -/
def rawSensorKeyed (s : RawSensor) : Bool :=
  s.service_type.isSome && s.service.isSome && s.sensor.isSome

/-- Structural validity of one raw fermenter: `name` and `sensors` present and
every sensor entry well-keyed. -/
def rawFermenterKeyed (f : RawFermenter) : Bool :=
  f.name.isSome &&
    match f.sensors with
    | some ss => ss.all (fun e => rawSensorKeyed e.2)
    | none => false

/-- Structural validity of the whole raw config document. -/
def wellKeyedConfig (cfg : List RawFermenter) : Bool :=
  cfg.all rawFermenterKeyed

/-- The poll-interval assignment of `prepare` (line 33):
`self.interval = max(900.0, poll_interval)`. -/
def effectiveInterval (i : ℚ) : ℚ :=
  max 900 i

/-- The premature-exit check at lines 113-114: `RepeaterCancelled` is raised
when the already-floored interval is `<= 0`. -/
def intervalCancelCheck (i : ℚ) : Bool :=
  decide (effectiveInterval i ≤ 0)

/-- Classification of the Brewfather response's `result` token
(lines 173-178). -/
inductive SubmitOutcome
  | submitted
  | ignored
  | failed
deriving DecidableEq, Repr

/-- `result == 'success'` logs success, `result == 'ignored'` logs the
throttle warning, anything else logs the raw body as unrecognised
(lines 173-178). -/
def classifyResult (result : String) : SubmitOutcome :=
  if result = "success" then .submitted
  else if result = "ignored" then .ignored
  else .failed

/-- A JSON scalar as carried through a poll cycle: the `value` of a metrics
row may be null, the identification fields are strings. -/
inductive Val
  | null
  | num (n : Int)
  | str (s : String)
deriving DecidableEq, Repr

/-- Outcome of the upstream fetch for one fermenter. `postError` models an
exception raised by `session.post(self.metrics_url, ...)` itself (line 139,
outside every try block: a transport failure or a `raise_for_status`
response error); `jsonError` models `ClientResponseError` raised by
`response.json()` (line 143, caught at line 150); `ok rows` is a parsed
list of `{metric, value}` rows. -/
inductive FetchOutcome
  | postError
  | jsonError
  | ok (rows : List (String × Val))
deriving DecidableEq, Repr

/-- The reshaping loop at lines 142-148: starting from `bfdata = \x7b\x7d`,
each row whose metric matches the fermenter's temp metric writes `'temp'`,
else one matching the gravity metric writes `'gravity'`; other rows are
dropped. -/
def bfdataOfRows (fields : DeviceFields) (rows : List (String × Val)) :
    List (String × Val) :=
  rows.foldl
    (fun d row =>
      if fields.temp_metric = some row.1 then dictInsert "temp" row.2 d
      else if fields.gravity_metric = some row.1 then dictInsert "gravity" row.2 d
      else d)
    []

/-- Lines 156-166: attach `'name'`, `'temp_unit'`, `'gravity_unit'` to
`bfdata`, then build `brewfather_params` by dropping every key whose value
is `None`. This is the payload passed to the Brewfather POST (line 169). -/
def finishPayload (name : String) (fields : DeviceFields) (bfdata : List (String × Val)) :
    List (String × Val) :=
  (dictInsert "gravity_unit" (Val.str fields.gravity_unit)
      (dictInsert "temp_unit" (Val.str fields.temp_unit)
        (dictInsert "name" (Val.str name) bfdata))).filter
    (fun kv => kv.2 ≠ Val.null)

/-- The fermenter loop of `run` (lines 126-180), abstracted over a fetch
oracle keyed by fermenter name. Returns the list of payloads passed to the
Brewfather POST, in order, paired with `true` when the cycle was aborted by
an uncaught fetch exception. A `postError` escapes `run` (the fetch POST is
outside the try), so the remaining fermenters are skipped and nothing more
is submitted this cycle; a `jsonError` is caught, leaving `bfdata` empty,
and the identification-only payload is still submitted. Brewfather POST
failures are caught inside their own try (lines 168-180) and do not affect
the loop, so the submit oracle does not appear here. -/
def runCycle (fetch : String → FetchOutcome) :
    List (String × DeviceFields) → List (List (String × Val)) × Bool
  | [] => ([], false)
  | (name, fields) :: rest =>
    match fetch name with
    | .postError => ([], true)
    | .jsonError =>
      let r := runCycle fetch rest
      (finishPayload name fields [] :: r.1, r.2)
    | .ok rows =>
      let r := runCycle fetch rest
      (finishPayload name fields (bfdataOfRows fields rows) :: r.1, r.2)

/-- Python truthiness test used on `Except` results: whether the prepare-phase
computation completed without raising. -/
def exceptOk {ε α : Type} : Except ε α → Bool
  | .ok _ => true
  | .error _ => false

/-- The `'fields'` list sent to the history API (lines 128-137): the distinct
non-`None` metric values of the fermenter's metrics dict. -/
def fieldsParam (metrics : List (String × Option String)) : List String :=
  ((metrics.map Prod.snd).filterMap id).dedup

/-- Membership of the just-written pair after a Python dict assignment. -/
theorem mem_dictInsert_self {α : Type} (k : String) (v : α) (d : List (String × α)) :
    (k, v) ∈ dictInsert k v d := by
  unfold dictInsert
  by_cases h : d.any (fun p => p.1 = k)
  · simp only [h, if_true]
    rw [List.any_eq_true] at h
    obtain ⟨p, hp, hpk⟩ := h
    refine List.mem_map.mpr ⟨p, hp, ?_⟩
    simp only [decide_eq_true_eq] at hpk
    simp [hpk]
  · simp [h]

/-- A dict assignment to a different key preserves existing entries. -/
theorem mem_dictInsert_of_ne {α : Type} {kv : String × α} {d : List (String × α)}
    (k : String) (v : α) (hm : kv ∈ d) (hne : kv.1 ≠ k) : kv ∈ dictInsert k v d := by
  unfold dictInsert
  by_cases h : d.any (fun p => p.1 = k)
  · simp only [h, if_true]
    refine List.mem_map.mpr ⟨kv, hm, ?_⟩
    simp [hne]
  · simp [h, hm]

/-- The three identification fields written at lines 156-159 survive the
null filter and are present in every finished payload. -/
theorem finishPayload_mem (name : String) (fields : DeviceFields)
    (bfdata : List (String × Val)) :
    ("name", Val.str name) ∈ finishPayload name fields bfdata ∧
      ("temp_unit", Val.str fields.temp_unit) ∈ finishPayload name fields bfdata ∧
      ("gravity_unit", Val.str fields.gravity_unit) ∈ finishPayload name fields bfdata := by
  unfold finishPayload
  refine ⟨List.mem_filter.mpr ⟨?_, by simp⟩, List.mem_filter.mpr ⟨?_, by simp⟩,
    List.mem_filter.mpr ⟨?_, by simp⟩⟩
  · exact mem_dictInsert_of_ne _ _
      (mem_dictInsert_of_ne _ _ (mem_dictInsert_self _ _ _)
        (by decide : ("name" : String) ≠ "temp_unit"))
      (by decide : ("name" : String) ≠ "gravity_unit")
  · exact mem_dictInsert_of_ne _ _ (mem_dictInsert_self _ _ _)
      (by decide : ("temp_unit" : String) ≠ "gravity_unit")
  · exact mem_dictInsert_self _ _ _

/-- Every payload submitted during a cycle is a finished payload of some
fermenter. -/
theorem runCycle_submissions (fetch : String → FetchOutcome)
    (m : List (String × DeviceFields)) :
    ∀ p ∈ (runCycle fetch m).1, ∃ name fields bfdata, p = finishPayload name fields bfdata := by
  induction m with
  | nil => simp [runCycle]
  | cons hd tl ih =>
    obtain ⟨name, fields⟩ := hd
    intro p hp
    unfold runCycle at hp
    split at hp
    · simp at hp
    · simp only [List.mem_cons] at hp
      rcases hp with hp | hp
      · exact ⟨name, fields, [], hp⟩
      · exact ih p hp
    · simp only [List.mem_cons] at hp
      rcases hp with hp | hp
      · exact ⟨name, fields, _, hp⟩
      · exact ih p hp

/-- Key extraction of one sensor succeeds exactly when the three required
keys are present. -/
theorem exceptOk_compileSensor (s : RawSensor) :
    exceptOk (compileSensor s) = rawSensorKeyed s := by
  rcases s with ⟨st, sv, sn, cal⟩
  cases st <;> cases sv <;> cases sn <;> simp [compileSensor, rawSensorKeyed, exceptOk]

/-- Key extraction of a sensor dict succeeds exactly when every entry is
well-keyed. -/
theorem exceptOk_compileSensors (ss : List (String × RawSensor)) :
    exceptOk (compileSensors ss) = ss.all (fun e => rawSensorKeyed e.2) := by
  induction ss with
  | nil => simp [compileSensors, exceptOk]
  | cons e rest ih =>
    simp only [compileSensors, List.all_cons]
    have he := exceptOk_compileSensor e.2
    cases hs : compileSensor e.2 with
    | error err =>
      rw [hs] at he
      simp only [exceptOk] at he ⊢
      rw [← he]
      simp
    | ok c =>
      rw [hs] at he
      simp only [exceptOk] at he
      rw [← he, Bool.true_and]
      cases hrest : compileSensors rest with
      | error err2 =>
        rw [hrest] at ih
        simp only [Except.map, exceptOk] at ih ⊢
        exact ih
      | ok cs =>
        rw [hrest] at ih
        simp only [Except.map, exceptOk] at ih ⊢
        exact ih

/-- Compilation of one fermenter succeeds exactly when its required keys are
present. -/
theorem exceptOk_compileFermenter (f : RawFermenter) :
    exceptOk (compileFermenter f) = rawFermenterKeyed f := by
  rcases f with ⟨nm, tu, gu, ss⟩
  cases nm with
  | none => cases ss <;> simp [compileFermenter, rawFermenterKeyed, exceptOk]
  | some n =>
    cases ss with
    | none => simp [compileFermenter, rawFermenterKeyed, exceptOk]
    | some sensors =>
      simp only [compileFermenter, rawFermenterKeyed, Option.isSome_some, Bool.true_and]
      rw [← exceptOk_compileSensors]
      cases h : compileSensors sensors <;> simp [Except.map, exceptOk]

/-- The fermenter loop succeeds exactly when every fermenter is well-keyed,
independently of the table accumulated so far. -/
theorem exceptOk_compileConfigAux (cfg : List RawFermenter) :
    ∀ table, exceptOk (compileConfigAux table cfg) = cfg.all rawFermenterKeyed := by
  induction cfg with
  | nil => intro table; simp [compileConfigAux, exceptOk]
  | cons f rest ih =>
    intro table
    simp only [compileConfigAux, List.all_cons]
    have hf' := exceptOk_compileFermenter f
    cases hf : compileFermenter f with
    | error err =>
      rw [hf] at hf'
      simp only [exceptOk] at hf' ⊢
      rw [← hf']
      simp
    | ok nv =>
      rw [hf] at hf'
      simp only [exceptOk] at hf'
      rw [← hf', Bool.true_and]
      exact ih _

/-- A fermenter whose temp metric resolves through a tilt service. -/
def demoFields : DeviceFields := ⟨some "t/p/Temperature[degF]", none, "F", "G"⟩

/-- Fetch oracle: the first device's metrics POST raises (uncaught). -/
def demoFetchPost : String → FetchOutcome := fun n => if n = "A" then .postError else .ok []

/-- Fetch oracle: the first device's response-body parse raises (caught). -/
def demoFetchJson : String → FetchOutcome := fun n => if n = "A" then .jsonError else .ok []

/-- Fetch oracle: every fetch succeeds with one temperature row. -/
def demoFetchOk : String → FetchOutcome := fun _ => .ok [("t/p/Temperature[degF]", Val.num 68)]

/-- C1 (amended): in the cycle loop, an exception from the fetch POST itself
(line 139, outside every try block) aborts the whole cycle — with two
configured devices whose first fetch fails this way, the second device is
not processed and ZERO submissions are made; only a response-body parse
failure (`ClientResponseError` from `response.json()`) is caught, and then a
submission containing only the identification fields is still made for the
failed device before processing continues with the next device. -/
theorem run_isolation_amended :
    (∀ (n1 n2 : String) (f1 f2 : DeviceFields) (fetch : String → FetchOutcome),
        fetch n1 = FetchOutcome.postError →
          runCycle fetch [(n1, f1), (n2, f2)] = ([], true)) ∧
      ∀ (n1 n2 : String) (f1 f2 : DeviceFields) (fetch : String → FetchOutcome)
        (rows : List (String × Val)),
        fetch n1 = FetchOutcome.jsonError → fetch n2 = FetchOutcome.ok rows →
          (runCycle fetch [(n1, f1), (n2, f2)]).1
            = [finishPayload n1 f1 [], finishPayload n2 f2 (bfdataOfRows f2 rows)] := by
  constructor
  · intro n1 n2 f1 f2 fetch h1
    simp [runCycle, h1]
  · intro n1 n2 f1 f2 fetch rows h1 h2
    simp [runCycle, h1, h2]

/-- C1 witness: the two behaviours at concrete two-device tables. -/
theorem run_isolation_amended_witness :
    runCycle demoFetchPost [("A", demoFields), ("B", demoFields)] = ([], true) ∧
      (runCycle demoFetchJson [("A", demoFields), ("B", demoFields)]).1
        = [finishPayload "A" demoFields [],
            finishPayload "B" demoFields (bfdataOfRows demoFields [])] :=
  ⟨run_isolation_amended.1 "A" "B" demoFields demoFields demoFetchPost rfl,
    run_isolation_amended.2 "A" "B" demoFields demoFields demoFetchJson [] rfl rfl⟩

/-- C1 counterexample: two devices, the first device's fetch POST fails and
the second would succeed — the claim predicts exactly one submission (for
the second device), but the cycle makes zero submissions. -/
theorem run_isolation_counterexample :
    ¬(runCycle demoFetchPost [("A", demoFields), ("B", demoFields)]).1.length = 1 := by
  decide

/-- C2 (amended): every configured interval below 900 — including zero and
negative values — is raised to an effective period of exactly 900 by
`max(900.0, poll_interval)` at line 33, and the disabled branch at lines
113-114 (`interval <= 0`) tests the already-floored value, so it never
fires: no configured interval disables the feature. -/
theorem interval_floor_amended :
    (∀ i : ℚ, i ≤ 900 → effectiveInterval i = 900) ∧
      ∀ i : ℚ, intervalCancelCheck i = false := by
  constructor
  · intro i h
    simp [effectiveInterval, max_eq_left h]
  · intro i
    simp [intervalCancelCheck, effectiveInterval]

/-- C2 witness: interval 10 is floored to 900 and interval 0 does not cancel. -/
theorem interval_floor_amended_witness :
    effectiveInterval 10 = 900 ∧ intervalCancelCheck 0 = false :=
  ⟨interval_floor_amended.1 10 (by norm_num), interval_floor_amended.2 0⟩

/-- C2 counterexample: a configured interval of 0 does not disable the
feature — it is floored to 900 and the `RepeaterCancelled` check is false,
so the poll cycle does run. -/
theorem interval_zero_counterexample :
    effectiveInterval 0 = 900 ∧ intervalCancelCheck 0 = false := by
  decide

/-- C3 (amended): the response classification at lines 173-178 maps
`success` to submitted and exactly the token `ignored` to the throttle
warning; EVERY other token — including the alleged legacy alias `OK` — falls
through to the unrecognised branch that logs the raw response body. -/
theorem classify_result_amended :
    classifyResult "success" = SubmitOutcome.submitted ∧
      classifyResult "ignored" = SubmitOutcome.ignored ∧
      ∀ s : String, s ≠ "success" → s ≠ "ignored" → classifyResult s = SubmitOutcome.failed := by
  refine ⟨by decide, by decide, ?_⟩
  intro s h1 h2
  simp [classifyResult, h1, h2]

/-- C3 witness: the three branches at concrete tokens, including `OK`. -/
theorem classify_result_amended_witness :
    classifyResult "success" = SubmitOutcome.submitted ∧
      classifyResult "ignored" = SubmitOutcome.ignored ∧
      classifyResult "OK" = SubmitOutcome.failed :=
  ⟨classify_result_amended.1, classify_result_amended.2.1,
    classify_result_amended.2.2 "OK" (by decide) (by decide)⟩

/-- C3 counterexample: the claim maps the legacy token `OK` to outcome
ignored, but the code has no such alias — `OK` classifies as failed. -/
theorem legacy_token_counterexample :
    classifyResult "OK" = SubmitOutcome.failed ∧
      classifyResult "OK" ≠ SubmitOutcome.ignored := by
  decide

/-- C4 (amended): tilt gravity labels — uncalibrated uses the unmodified
label (`Specific gravity` for unit G, `Plato[degP]` otherwise); calibrated
prefixes `Calibrated ` and lower-cases the ENTIRE label via `.lower()`
(line 85), giving `Calibrated specific gravity` for unit G but
`Calibrated plato[degp]` — not `Calibrated plato[degP]` — otherwise. -/
theorem gravity_metric_amended (service sensor gu : String) :
    gravityMetricTilt service sensor "G" false
        = service ++ "/" ++ sensor ++ "/Specific gravity" ∧
      gravityMetricTilt service sensor "G" true
        = service ++ "/" ++ sensor ++ "/Calibrated specific gravity" ∧
      (gu ≠ "G" → gravityMetricTilt service sensor gu false
        = service ++ "/" ++ sensor ++ "/Plato[degP]") ∧
      (gu ≠ "G" → gravityMetricTilt service sensor gu true
        = service ++ "/" ++ sensor ++ "/Calibrated plato[degp]") := by
  have hG : pyLower "Specific gravity" = "specific gravity" := by decide
  have hP : pyLower "Plato[degP]" = "plato[degp]" := by decide
  refine ⟨?_, ?_, fun h => ?_, fun h => ?_⟩
  · simp [gravityMetricTilt, String.append_assoc]
  · simp [gravityMetricTilt, hG, String.append_assoc]
  · simp [gravityMetricTilt, h, String.append_assoc]
  · simp [gravityMetricTilt, h, hP, String.append_assoc]

/-- C4 witness: all four label combinations at a concrete sensor. -/
theorem gravity_metric_amended_witness :
    gravityMetricTilt "tilt-svc" "pink" "G" false
        = "tilt-svc" ++ "/" ++ "pink" ++ "/Specific gravity" ∧
      gravityMetricTilt "tilt-svc" "pink" "G" true
        = "tilt-svc" ++ "/" ++ "pink" ++ "/Calibrated specific gravity" ∧
      gravityMetricTilt "tilt-svc" "pink" "Plato" false
        = "tilt-svc" ++ "/" ++ "pink" ++ "/Plato[degP]" ∧
      gravityMetricTilt "tilt-svc" "pink" "Plato" true
        = "tilt-svc" ++ "/" ++ "pink" ++ "/Calibrated plato[degp]" :=
  ⟨(gravity_metric_amended "tilt-svc" "pink" "Plato").1,
    (gravity_metric_amended "tilt-svc" "pink" "Plato").2.1,
    (gravity_metric_amended "tilt-svc" "pink" "Plato").2.2.1 (by decide),
    (gravity_metric_amended "tilt-svc" "pink" "Plato").2.2.2 (by decide)⟩

/-- C4 counterexample: a calibrated Plato tilt gravity sensor resolves to
`.../Calibrated plato[degp]`, not the claimed `.../Calibrated plato[degP]` —
`.lower()` lower-cases the `P` of `degP` too. -/
theorem gravity_plato_counterexample :
    gravityMetricTilt "tilt-svc" "pink" "Plato" true
        = "tilt-svc/pink/Calibrated plato[degp]" ∧
      gravityMetricTilt "tilt-svc" "pink" "Plato" true
        ≠ "tilt-svc/pink/Calibrated plato[degP]" := by
  decide

/-- A fermenter declaring only a gravity sensor, leaving temp unresolved. -/
def loneGravitySensor : RawSensor := ⟨some "tilt", some "tilt-svc", some "pink", false⟩

/-- A raw fermenter with a gravity sensor and no temp sensor. -/
def loneGravityFermenter : RawFermenter :=
  ⟨some "fridge", none, none, some [("gravity", loneGravitySensor)]⟩

/-- The `'metrics'` dict compiled for `loneGravityFermenter`. -/
def loneGravityMetricsDict : List (String × Option String) :=
  match compileFermenter loneGravityFermenter with
  | .ok nv => deviceMetricsDict nv.2.temp_metric nv.2.gravity_metric
  | .error _ => []

/-- C5 counterexample: a device that never declares a temp sensor still gets
the key `'temp'` in its compiled metrics dict — present with value `None`,
contradicting the claim that unresolved fields are entirely absent as keys. -/
theorem unmapped_field_counterexample :
    ("temp", (none : Option String)) ∈ loneGravityMetricsDict ∧
      loneGravityMetricsDict
        = [("temp", none), ("gravity", some "tilt-svc/pink/Specific gravity")] := by
  decide

/-- C5 (amended): the compiled metrics dict always carries both keys `temp`
and `gravity` — an unresolved field is present with value `None` rather than
absent — and the null entries are filtered out later, when the fetch field
list is built: only resolved identifiers reach the fetch request. -/
theorem unmapped_field_present_as_null (tm gm : Option String) :
    (deviceMetricsDict tm gm).map Prod.fst = ["temp", "gravity"] ∧
      ("temp", tm) ∈ deviceMetricsDict tm gm ∧
      ("gravity", gm) ∈ deviceMetricsDict tm gm ∧
      ∀ m ∈ fieldsParam (deviceMetricsDict tm gm), some m = tm ∨ some m = gm := by
  refine ⟨by simp [deviceMetricsDict], by simp [deviceMetricsDict],
    by simp [deviceMetricsDict], ?_⟩
  intro m hm
  simp only [fieldsParam, deviceMetricsDict, List.map_cons, List.map_nil,
    List.mem_dedup, List.mem_filterMap, List.mem_cons, List.not_mem_nil,
    or_false, id_eq] at hm
  rcases hm with ⟨a, ha | ha, rfl⟩
  · exact Or.inl ha
  · exact Or.inr ha

/-- C5 witness: a resolved temp metric is present and is the only identifier
the fetch field list can produce. -/
theorem unmapped_field_present_as_null_witness :
    ("temp", some "x") ∈ deviceMetricsDict (some "x") none ∧
      (some "x" = some "x" ∨ some "x" = (none : Option String)) :=
  ⟨(unmapped_field_present_as_null (some "x") none).2.1,
    (unmapped_field_present_as_null (some "x") none).2.2.2 "x" (by decide)⟩

/-- First of two distinct fermenter records sharing the same name. -/
def dupSensorOne : RawSensor := ⟨some "spark", some "spark-one", some "sensor-a", false⟩

/-- Second of two distinct fermenter records sharing the same name. -/
def dupSensorTwo : RawSensor := ⟨some "spark", some "spark-one", some "sensor-b", false⟩

/-- A config with two well-keyed devices that share the name `fermenter-1`. -/
def dupNameConfig : List RawFermenter :=
  [⟨some "fermenter-1", some "C", some "Plato", some [("temp", dupSensorOne)]⟩,
    ⟨some "fermenter-1", some "C", some "Plato", some [("temp", dupSensorTwo)]⟩]

/-- C6 counterexample: a configuration with two devices of the same name is
NOT a compile failure — compilation succeeds and the second record silently
overwrites the first in the mapping table. -/
theorem duplicate_device_counterexample :
    exceptOk (compileConfig dupNameConfig) = true ∧
      (compileConfig dupNameConfig).toOption
        = some [("fermenter-1",
            ⟨some "spark-one/sensor-b/value[degC]", none, "C", "Plato"⟩)] := by
  decide

/-- C6 (amended): configuration compilation fails — aborting feature startup
with no partial table — exactly when a required key (`name`, `sensors`, or a
sensor's `service_type` / `service` / `sensor`) is missing (the
unreadable/unparseable-file case raises before this point and is out of this
model); duplicate device names and unknown enum values are NOT rejected:
a later duplicate silently overwrites the earlier entry. -/
theorem compile_ok_characterisation (cfg : List RawFermenter) :
    exceptOk (compileConfig cfg) = wellKeyedConfig cfg :=
  exceptOk_compileConfigAux cfg []

/-- C7: temp-field resolution — tilt yields
`{service}/{sensor}/Calibrated temperature[deg{u}]` when calibrated and
`{service}/{sensor}/Temperature[deg{u}]` when not; spark yields
`{service}/{sensor}/value[deg{u}]` regardless of the calibration flag. -/
theorem temp_metric_resolution (service sensor temp_unit : String) (c : Bool) :
    tempMetric "tilt" service sensor temp_unit true
        = some (service ++ "/" ++ sensor ++ "/Calibrated temperature[deg" ++ temp_unit ++ "]") ∧
      tempMetric "tilt" service sensor temp_unit false
        = some (service ++ "/" ++ sensor ++ "/Temperature[deg" ++ temp_unit ++ "]") ∧
      tempMetric "spark" service sensor temp_unit c
        = some (service ++ "/" ++ sensor ++ "/value[deg" ++ temp_unit ++ "]") := by
  refine ⟨by simp [tempMetric], by simp [tempMetric], by simp [tempMetric]⟩

/-- C8: every payload passed to the Brewfather POST during a cycle has been
through the null filter at lines 161-166, so none of its values is null. -/
theorem submitted_payload_never_null (fetch : String → FetchOutcome)
    (m : List (String × DeviceFields)) :
    ∀ p ∈ (runCycle fetch m).1, ∀ kv ∈ p, kv.2 ≠ Val.null := by
  intro p hp kv hkv
  obtain ⟨name, fields, bfdata, rfl⟩ := runCycle_submissions fetch m p hp
  unfold finishPayload at hkv
  have h := List.mem_filter.mp hkv
  simpa using h.2

/-- C8 witness: a concrete submitted temperature entry is non-null. -/
theorem submitted_payload_never_null_witness :
    (("temp", Val.num 68) : String × Val).2 ≠ Val.null :=
  submitted_payload_never_null demoFetchOk [("A", demoFields)]
    (finishPayload "A" demoFields
      (bfdataOfRows demoFields [("t/p/Temperature[degF]", Val.num 68)]))
    (by decide) ("temp", Val.num 68) (by decide)

/-- C9: a fermenter record that omits both unit keys compiles with the
hard-coded defaults `temp_unit = "F"` and `gravity_unit = "G"` (lines 51-52),
and those unit values are attached to every payload finished for that
device (lines 158-159). -/
theorem default_units (f : RawFermenter) (nm : String) (df : DeviceFields)
    (ht : f.temp_unit = none) (hg : f.gravity_unit = none)
    (hc : compileFermenter f = Except.ok (nm, df)) :
    df.temp_unit = "F" ∧ df.gravity_unit = "G" ∧
      ∀ bfdata, ("temp_unit", Val.str "F") ∈ finishPayload nm df bfdata ∧
        ("gravity_unit", Val.str "G") ∈ finishPayload nm df bfdata := by
  have main : df.temp_unit = "F" ∧ df.gravity_unit = "G" := by
    rcases f with ⟨fnm, ftu, fgu, fss⟩
    simp only at ht hg
    subst ht hg
    cases fnm with
    | none => simp [compileFermenter] at hc
    | some n =>
      cases fss with
      | none => simp [compileFermenter] at hc
      | some ss =>
        simp only [compileFermenter] at hc
        cases hcs : compileSensors ss with
        | error err => rw [hcs] at hc; simp [Except.map] at hc
        | ok cs =>
          rw [hcs] at hc
          simp only [Except.map, Option.getD] at hc
          rcases hcd : compileDevice "F" "G" cs with ⟨tm, gm⟩
          rw [hcd] at hc
          simp only [Except.ok.injEq, Prod.mk.injEq] at hc
          rw [← hc.2]
          exact ⟨rfl, rfl⟩
  refine ⟨main.1, main.2, fun bfdata => ?_⟩
  have h := finishPayload_mem nm df bfdata
  rw [main.1, main.2] at h
  exact ⟨h.2.1, h.2.2⟩

/-- A raw fermenter with both unit keys omitted. -/
def unitlessFermenter : RawFermenter :=
  ⟨some "keg", none, none,
    some [("temp", ⟨some "spark", some "spark-one", some "probe", false⟩)]⟩

/-- The device record `unitlessFermenter` compiles to. -/
def unitlessDevice : DeviceFields := ⟨some "spark-one/probe/value[degF]", none, "F", "G"⟩

/-- C9 witness: the defaults and their presence in a concrete payload. -/
theorem default_units_witness :
    unitlessDevice.temp_unit = "F" ∧ unitlessDevice.gravity_unit = "G" ∧
      ("temp_unit", Val.str "F") ∈ finishPayload "keg" unitlessDevice [] ∧
      ("gravity_unit", Val.str "G") ∈ finishPayload "keg" unitlessDevice [] :=
  ⟨(default_units unitlessFermenter "keg" unitlessDevice rfl rfl rfl).1,
    (default_units unitlessFermenter "keg" unitlessDevice rfl rfl rfl).2.1,
    ((default_units unitlessFermenter "keg" unitlessDevice rfl rfl rfl).2.2 []).1,
    ((default_units unitlessFermenter "keg" unitlessDevice rfl rfl rfl).2.2 []).2⟩

/-- C10: every payload that reaches the Brewfather POST carries the keys
`name`, `temp_unit` and `gravity_unit` with (non-null) string values, and a
device whose fetch produced no metric values still submits a payload of
exactly those three identification fields. -/
theorem payload_identity_fields (fetch : String → FetchOutcome)
    (m : List (String × DeviceFields)) :
    (∀ p ∈ (runCycle fetch m).1,
        (∃ n, ("name", Val.str n) ∈ p) ∧ (∃ u, ("temp_unit", Val.str u) ∈ p) ∧
          ∃ g, ("gravity_unit", Val.str g) ∈ p) ∧
      ∀ name fields,
        finishPayload name fields []
          = [("name", Val.str name), ("temp_unit", Val.str fields.temp_unit),
              ("gravity_unit", Val.str fields.gravity_unit)] := by
  constructor
  · intro p hp
    obtain ⟨name, fields, bfdata, rfl⟩ := runCycle_submissions fetch m p hp
    have h := finishPayload_mem name fields bfdata
    exact ⟨⟨name, h.1⟩, ⟨fields.temp_unit, h.2.1⟩, ⟨fields.gravity_unit, h.2.2⟩⟩
  · intro name fields
    simp [finishPayload, dictInsert]

/-- C10 witness: the identification fields of a concrete submitted payload. -/
theorem payload_identity_fields_witness :
    (∃ n, ("name", Val.str n) ∈ finishPayload "A" demoFields []) ∧
      (∃ u, ("temp_unit", Val.str u) ∈ finishPayload "A" demoFields []) ∧
      ∃ g, ("gravity_unit", Val.str g) ∈ finishPayload "A" demoFields [] :=
  (payload_identity_fields demoFetchJson [("A", demoFields)]).1
    (finishPayload "A" demoFields []) (by decide)
